import Mathlib

/-!
Verification of the spatial query and filtering layer of the
community-event-locator repository (`places/views_api.py`,
`places/serializers.py`, `places/models.py`).

The embedding models the code over exact rationals: coordinate values and
meter distances are `ℚ`, timestamps are `ℤ`.  The spatial datastore
(PostGIS/GEOS) is an external collaborator, so its geometric operators —
the meter-valued index distance used by `distance_lte`, the degree-valued
`GEOSGeometry.distance`, and the linestring `length` — are passed in as
function parameters; the repository's own arithmetic (the 111,000 m/degree
conversion, rounding, averaging, filter composition, parameter parsing) is
embedded directly.
-/

namespace CEL

/-- A longitude/latitude point (SRID 4326, longitude first), as built by
`Point(lng, lat, srid=4326)` in `views_api.py`. -/
structure Pt where
  lng : ℚ
  lat : ℚ
deriving DecidableEq, Repr

/-- A polygon as a single linear ring, as built by `Polygon(coords, srid=4326)`. -/
structure Polygon where
  ring : List Pt
deriving DecidableEq, Repr

/-- A linestring, as stored in `Route.path` (`models.py:193`). -/
structure LineString where
  points : List Pt
deriving DecidableEq, Repr

-- ------------------------------------------------------------------
-- Parsing of untrusted query parameters.
--
-- `nearby` does `float(request.GET.get("lat"))` etc.  `float(None)` raises
-- TypeError, `float("junk")` raises ValueError; both are caught and turned
-- into a 400 (`views_api.py:261-266`).  We embed Python's `float()` /
-- `int()` on the plain decimal-literal fragment of their input language
-- (optional minus sign, digits, optional fractional part); the inputs used
-- by every concrete theorem below fall in this fragment, where the Lean
-- parser and Python agree exactly.
-- ------------------------------------------------------------------

/-- Value of a decimal digit character (spelled as a comparison chain so
that each result is a numeric literal, which keeps kernel evaluation of
the parsers cheap). -/
def digitVal (c : Char) : Option Nat :=
  if c = '0' then some 0
  else if c = '1' then some 1
  else if c = '2' then some 2
  else if c = '3' then some 3
  else if c = '4' then some 4
  else if c = '5' then some 5
  else if c = '6' then some 6
  else if c = '7' then some 7
  else if c = '8' then some 8
  else if c = '9' then some 9
  else none

/-- Parse a non-empty all-digit character list as a natural number. -/
def parseNatChars (cs : List Char) : Option Nat :=
  if cs.isEmpty then none
  else cs.foldl
    (fun acc c =>
      match acc, digitVal c with
      | some a, some d => some (10 * a + d)
      | _, _ => none)
    (some 0)

/-- Split a character list on a separator character; mirrors Python
`str.split(sep)` (so the empty input yields one empty field). -/
def splitOnChar (sep : Char) : List Char → List (List Char)
  | [] => [[]]
  | c :: cs =>
    let r := splitOnChar sep cs
    if c = sep then [] :: r
    else
      match r with
      | [] => [[c]]
      | h :: t => (c :: h) :: t

/-- Python `float()` on plain decimal literals. -/
def parseFloatChars (cs : List Char) : Option ℚ :=
  let p : Bool × List Char :=
    match cs with
    | '-' :: rest => (true, rest)
    | _ => (false, cs)
  let mag : Option ℚ :=
    match splitOnChar '.' p.2 with
    | [ip] => (parseNatChars ip).map (fun n => (n : ℚ))
    | [ip, fp] =>
      match parseNatChars ip, parseNatChars fp with
      | some i, some f => some ((i : ℚ) + (f : ℚ) / ((10 ^ fp.length : ℕ) : ℚ))
      | _, _ => none
    | _ => none
  mag.map (fun q => if p.1 then -q else q)

/-- Python `float()` on a string (plain decimal-literal fragment). -/
def parseFloat (s : String) : Option ℚ := parseFloatChars s.data

/-- Python `int()` on a string (plain integer-literal fragment):
`int("2.5")` raises ValueError, so a fractional string parses to `none`. -/
def parseInt (s : String) : Option ℤ :=
  match s.data with
  | '-' :: rest => (parseNatChars rest).map (fun n => -(n : ℤ))
  | cs => (parseNatChars cs).map (fun n => (n : ℤ))

/-- Python `str.strip()` (whitespace at both ends). -/
def trimStr (s : String) : String :=
  ⟨((s.data.dropWhile Char.isWhitespace).reverse.dropWhile Char.isWhitespace).reverse⟩

/-- Python `(x or default)` on an optional string: `None` and `""` both
fall back to the default. -/
def orDefault (s : Option String) (d : String) : String :=
  match s with
  | none => d
  | some v => if v = "" then d else v

/-- Needle is a prefix of the haystack (character lists). -/
def charsStartWith : List Char → List Char → Bool
  | _, [] => true
  | [], _ :: _ => false
  | h :: hs, n :: ns => h == n && charsStartWith hs ns

/-- Needle occurs somewhere in the haystack (character lists). -/
def charsContain : List Char → List Char → Bool
  | [], needle => needle.isEmpty
  | h :: t, needle => charsStartWith (h :: t) needle || charsContain t needle

/-- Django `field__icontains=value`: case-insensitive substring test. -/
def icontains (field value : String) : Bool :=
  charsContain (field.data.map Char.toLower) (value.data.map Char.toLower)

-- ------------------------------------------------------------------
-- Data model (models.py), restricted to the columns and relations the
-- spatial query and serialization layer reads.
-- ------------------------------------------------------------------

/-- An `EventCategory` row as read by `EventGeoSerializer.get_category`
(`serializers.py:325`). -/
structure Category where
  id : ℤ
  name : String
deriving DecidableEq, Repr

/-- An `EventMedia` row (`models.py:407-428`).  Its foreign key to `Event`
declares `related_name='media'` (`models.py:423`), so the reverse accessor
on an Event instance is named `media`. -/
structure EventMedia where
  id : ℤ
  url : String
deriving DecidableEq, Repr

/-- An `Event` row (`models.py:263`) with the attributes the query and
serialization layer reads.  `whenT` embeds the `when` column (a Lean
keyword) as an abstract timestamp; `reviews` holds the ratings of the
attached `EventReview` rows (`models.py:488-492`); `media` is the reverse
relation from `EventMedia` (`related_name='media'`). -/
structure Event where
  id : ℤ
  title : String
  description : String
  whenT : ℤ
  location : Option Pt
  category : Option Category
  organizer : Option (ℤ × String)
  country : Option (ℤ × String)
  tags : String
  status : String
  reviews : List ℤ
  media : List EventMedia
deriving DecidableEq, Repr

/-- A `Route` row (`models.py:176`): `path` is nullable in practice only
through schema drift; `Option` also covers the GEOS empty geometry, which
is falsy in Python exactly like `None` in `if self.path:`. -/
structure Route where
  id : ℤ
  name : String
  path : Option LineString
deriving DecidableEq, Repr

/-- Outcome of a Python expression that may raise: `ok v` when it returns
`v`, `raised` when it throws. -/
inductive PyResult (α : Type) where
  | ok (a : α)
  | raised
deriving DecidableEq, Repr

/-- A `Neighborhood` row (`models.py:65-96`).  `eventsCount` records the
outcome of the datastore call `self.events.count()`: `.ok n` when the
reverse relation is queryable, `.raised` when the call raises (for
example the events table is missing in a partially migrated deployment,
the failure mode the serializers guard against throughout
`serializers.py`). -/
structure NeighborhoodRec where
  id : ℤ
  name : String
  area : Polygon
  description : String
  country : Option (ℤ × String)
  region : Option (ℤ × String)
  eventsCount : PyResult ℕ
deriving DecidableEq, Repr

-- ------------------------------------------------------------------
-- Numeric policy constants (views_api.py / serializers.py / models.py).
-- ------------------------------------------------------------------

/-- The fixed degree-to-meter conversion factor used by
`EventGeoSerializer.get_distance` (`serializers.py:395`) and
`Route.distance_meters` (`models.py:222`). -/
def METERS_PER_DEGREE : ℚ := 111000

/-- Python `round(x, 2)`: round to 2 decimal places.  (Python rounds ties
to even; `round` here rounds ties up.  No theorem below evaluates at a
tie, so the two agree on every input used.) -/
def round2 (q : ℚ) : ℚ := (round (q * 100) : ℚ) / 100

-- ------------------------------------------------------------------
-- EventGeoSerializer (serializers.py:216-453).  Every property is a
-- SerializerMethodField; the embedding gives each `get_*` method its own
-- definition and `serializeEvent` assembles the Feature.  The GEOS
-- degree-valued `location.distance(reference_point)` is the external
-- parameter `distDeg`.
-- ------------------------------------------------------------------

/-- A serialized GeoJSON Feature for an Event, restricted to the
properties the claims mention. -/
structure Feature where
  id : ℤ
  geometry : Option Pt
  title : String
  category : Option Category
  organizer : Option (ℤ × String)
  country : Option (ℤ × String)
  tags_list : List String
  distance : Option ℚ
  average_rating : Option ℚ
  media : List EventMedia
deriving DecidableEq, Repr

/-- `get_category` (`serializers.py:325-332`): the related row's fields if
the relation is set, otherwise null. -/
def get_category (e : Event) : Option Category := e.category

/-- `get_organizer` (`serializers.py:334-341`). -/
def get_organizer (e : Event) : Option (ℤ × String) := e.organizer

/-- `get_country` (`serializers.py:343-350`). -/
def get_country (e : Event) : Option (ℤ × String) := e.country

/-- `get_tags_list` (`serializers.py:361-371`), via
`Event.get_tags_list` (`models.py:375-377`): split the comma-separated
tags string, strip whitespace, drop empties. -/
def get_tags_list (e : Event) : List String :=
  (((splitOnChar ',' e.tags.data).map fun cs => trimStr ⟨cs⟩).filter fun t => t ≠ "")

/-- `get_distance` (`serializers.py:389-399`): only when the serializer
context supplies a `reference_point` and the event has a location,
`location.distance(reference_point) * 111000` rounded to 2 decimals;
otherwise null. -/
def get_distance (distDeg : Pt → Pt → ℚ) (ref : Option Pt) (loc : Option Pt) : Option ℚ :=
  match ref, loc with
  | some r, some l => some (round2 (distDeg l r * METERS_PER_DEGREE))
  | _, _ => none

/-- `get_average_rating` (`serializers.py:408-417`): the plain mean
`sum(r.rating for r in reviews) / reviews.count()` when reviews exist
— note: no rounding — otherwise null. -/
def get_average_rating (e : Event) : Option ℚ :=
  if e.reviews.isEmpty then none
  else some ((e.reviews.map fun r => (r : ℚ)).sum / (e.reviews.length : ℚ))

/-- The model property `Event.average_rating` (`models.py:394-400`): the
mean of the ratings **rounded to 2 decimals**, null when there are no
reviews.  The serializer does not call it. -/
def modelAverageRating (e : Event) : Option ℚ :=
  if e.reviews.isEmpty then none
  else some (round2 ((e.reviews.map fun r => (r : ℚ)).sum / (e.reviews.length : ℚ)))

/-- Python attribute lookup for `media_files` on an Event instance:
`Event` has no such attribute — the `EventMedia` reverse relation is named
`media` (`models.py:423`) — so `hasattr(obj, 'media_files')` is false for
every Event and the lookup yields nothing. -/
def eventAttrMediaFiles (_e : Event) : Option (List EventMedia) := none

/-- The reverse relation `event.media.all()` that does exist
(`related_name='media'`, `models.py:423`). -/
def eventAttrMedia (e : Event) : List EventMedia := e.media

/-- `get_media` (`serializers.py:419-426`): serialize `obj.media_files`
when the attribute exists, else return `[]`. -/
def get_media (e : Event) : List EventMedia :=
  match eventAttrMediaFiles e with
  | some ms => ms
  | none => []

/-- `EventGeoSerializer.to_representation` for one Event, with the
serializer context's optional `reference_point` (`ref`).  All getters are
internally guarded in the source, so serializing one Event is total. -/
def serializeEvent (distDeg : Pt → Pt → ℚ) (ref : Option Pt) (e : Event) : Feature :=
  { id := e.id
    geometry := e.location
    title := e.title
    category := get_category e
    organizer := get_organizer e
    country := get_country e
    tags_list := get_tags_list e
    distance := get_distance distDeg ref e.location
    average_rating := get_average_rating e
    media := get_media e }

-- ------------------------------------------------------------------
-- NeighborhoodGeoSerializer (serializers.py:87-133).
-- ------------------------------------------------------------------

/-- A serialized Feature for a Neighborhood. -/
structure NeighborhoodFeature where
  id : ℤ
  geometry : Polygon
  name : String
  description : String
  event_count : ℕ
  country : Option (ℤ × String)
  region : Option (ℤ × String)
deriving DecidableEq, Repr

/-- The first `get_event_count` in the class body
(`serializers.py:124-129`): guarded by try/except, defaulting to 0.  It is
dead code — the second definition below replaces it when the Python class
body finishes executing. -/
def getEventCountShadowed (n : NeighborhoodRec) : ℕ :=
  match n.eventsCount with
  | .ok k => k
  | .raised => 0

/-- The second, effective `get_event_count` (`serializers.py:131-133`):
`return obj.events.count()` with no exception handling, so a raising
count propagates to the caller. -/
def getEventCount (n : NeighborhoodRec) : PyResult ℕ := n.eventsCount

/-- `NeighborhoodGeoSerializer.to_representation` for one record: the
class overrides neither `to_representation` nor `get_properties`, so an
exception from any field getter aborts the record.  `get_description`,
`get_country` and `get_region` are internally guarded
(`serializers.py:99-122`); `get_event_count` is not. -/
def serializeNeighborhood (n : NeighborhoodRec) : PyResult NeighborhoodFeature :=
  match getEventCount n with
  | .ok cnt =>
    .ok { id := n.id, geometry := n.area, name := n.name,
          description := n.description, event_count := cnt,
          country := n.country, region := n.region }
  | .raised => .raised

-- ------------------------------------------------------------------
-- Route distance properties (models.py:217-229).
-- ------------------------------------------------------------------

/-- Python truthiness of a route's `path`: `None` and the empty
linestring are falsy; any linestring with points is truthy. -/
def pathTruthy : Option LineString → Bool
  | none => false
  | some ls => !ls.points.isEmpty

/-- `Route.distance_meters` (`models.py:217-223`):
`round(self.path.length * 111000, 2)` when `self.path` is truthy, else
`None`.  The degree-valued `path.length` is the external GEOS operation,
passed as `lengthDeg`. -/
def distance_meters (lengthDeg : LineString → ℚ) (r : Route) : Option ℚ :=
  match r.path with
  | some p => if p.points.isEmpty then none else some (round2 (lengthDeg p * METERS_PER_DEGREE))
  | none => none

/-- `Route.distance_km` (`models.py:225-229`):
`round(dist / 1000, 2) if dist else None` — the guard is Python
truthiness of `dist`, so it is `None` both when `distance_meters` is
`None` and when it is `0.0`. -/
def distance_km (lengthDeg : LineString → ℚ) (r : Route) : Option ℚ :=
  match distance_meters lengthDeg r with
  | some d => if d ≠ 0 then some (round2 (d / 1000)) else none
  | none => none

-- ------------------------------------------------------------------
-- Queryset ordering. Event.Meta declares `ordering = ['-when']`
-- (models.py:369), so every un-reordered Event queryset comes back
-- newest-first; `EventViewSet.list` replaces it via `order_by`.
-- The sort is an insertion sort (the datastore's choice of algorithm is
-- irrelevant; only the comparator semantics matter here).
-- ------------------------------------------------------------------

/-- Insert into a sorted list, keeping earlier elements first on ties. -/
def insertBy {α : Type} (le : α → α → Bool) (a : α) : List α → List α
  | [] => [a]
  | b :: bs => if le a b then a :: b :: bs else b :: insertBy le a bs

/-- Sort a list by the boolean comparator `le`. -/
def sortBy {α : Type} (le : α → α → Bool) (l : List α) : List α :=
  l.foldr (insertBy le) []

/-- Lexicographic order on character lists (Django's text ordering, up to
collation, which no claim depends on). -/
def charsLe : List Char → List Char → Bool
  | [], _ => true
  | _ :: _, [] => false
  | a :: as, b :: bs => a < b || (a == b && charsLe as bs)

/-- Ascending comparator for each embedded orderable Event column. -/
def fieldLe (field : String) (a b : Event) : Bool :=
  match field.data with
  | ['i', 'd'] => a.id ≤ b.id
  | ['w', 'h', 'e', 'n'] => a.whenT ≤ b.whenT
  | ['t', 'i', 't', 'l', 'e'] => charsLe a.title.data b.title.data
  | ['s', 't', 'a', 't', 'u', 's'] => charsLe a.status.data b.status.data
  | ['t', 'a', 'g', 's'] => charsLe a.tags.data b.tags.data
  | _ => charsLe a.description.data b.description.data

/-- The Event model columns (restricted to the ones this embedding
carries) that `order_by` accepts; any other name makes Django's
`add_ordering` raise `FieldError` (there is no whitelist in
`views_api.py`). -/
def validOrderFields : List String :=
  ["id", "when", "title", "status", "tags", "description"]

/-- Strip one leading `-` (descending marker) from an ordering token. -/
def stripDesc (s : String) : Bool × String :=
  match s.data with
  | '-' :: rest => (true, ⟨rest⟩)
  | _ => (false, s)

/-- `qs.order_by(ordering)` (`views_api.py:197`): `none` models the
uncaught `FieldError` Django raises for an unknown field name. -/
def orderBy (ordering : String) (l : List Event) : Option (List Event) :=
  let p := stripDesc ordering
  if validOrderFields.contains p.2 then
    some (if p.1 then sortBy (fun a b => fieldLe p.2 b a) l else sortBy (fieldLe p.2) l)
  else none

/-- The Event default queryset order `['-when']` (models.py:369). -/
def defaultOrder (l : List Event) : List Event :=
  sortBy (fun a b => b.whenT ≤ a.whenT) l

-- ------------------------------------------------------------------
-- HTTP responses and the spatial-query telemetry log.
-- ------------------------------------------------------------------

/-- The response of an endpoint: a 200 body, a 400 `{'error': msg}` body,
a 404, or an unhandled exception escaping the view (which Django/DRF turn
into a 5xx). -/
inductive Resp (α : Type) where
  | ok (body : α)
  | badRequest (msg : String)
  | notFound
  | serverError (msg : String)
deriving DecidableEq, Repr

/-- One `SpatialQueryLog` row (`models.py:665-704`), restricted to the
fields the logging helper always sets. -/
structure QueryLogEntry where
  query_type : String
  result_count : ℕ
deriving DecidableEq, Repr

/-- The telemetry side of the world: the `SpatialQueryLog` table plus the
diagnostic (logger.warning) channel. -/
structure LogState where
  entries : List QueryLogEntry
  diagnostics : List String
deriving DecidableEq, Repr

/-- `_log_spatial_query` (`views_api.py:76-103`): attempt the
`SpatialQueryLog.objects.create`; when the write raises (`writeOk =
false`), swallow the exception and emit only a logger warning.  The
helper never propagates a failure. -/
def logSpatialQuery (writeOk : Bool) (entry : QueryLogEntry) (st : LogState) : LogState :=
  if writeOk then { st with entries := st.entries ++ [entry] }
  else { st with diagnostics := st.diagnostics ++ ["Failed to log spatial query"] }

-- ------------------------------------------------------------------
-- EventViewSet.nearby (views_api.py:256-284).
-- ------------------------------------------------------------------

/-- The raw query parameters of a `nearby` request
(`request.GET.get(...)`: absent parameters are `none`). -/
structure NearbyParams where
  lat : Option String
  lng : Option String
  radius : Option String
deriving DecidableEq, Repr

/-- `float(request.GET.get(name))`: `none` is the caught
TypeError (missing) or ValueError (non-numeric). -/
def parseCoord : Option String → Option ℚ
  | none => none
  | some s => parseFloat s

/-- `int(request.GET.get("radius", 1000))` (`views_api.py:264`): default
1000 when the parameter is absent; `none` is the caught ValueError. -/
def parseRadius : Option String → Option ℤ
  | none => some 1000
  | some s => parseInt s

/-- The spatial-index filter `location__distance_lte=(pt, D(m=radius))`
(`views_api.py:269-271`) on one event: rows with a NULL location never
match.  `distM` is the datastore's meter-valued distance operator
(external collaborator). -/
def nearbyPred (distM : Pt → Pt → ℚ) (pt : Pt) (radius : ℤ) (e : Event) : Bool :=
  match e.location with
  | some l => decide (distM l pt ≤ (radius : ℚ))
  | none => false

/-- The event set `nearby` returns (before serialization): the filtered
queryset in the model's default `-when` order. -/
def nearbyEvents (distM : Pt → Pt → ℚ) (pt : Pt) (radius : ℤ) (events : List Event) : List Event :=
  defaultOrder (events.filter (nearbyPred distM pt radius))

/-- `EventViewSet.nearby` (`views_api.py:256-284`): parse lat/lng/radius
(any parse failure → 400, and those are the only checks); filter; count;
serialize **without a reference point** (`EventGeoSerializer(qs,
many=True)` passes no context); log the query; return 200.  Returns the
response together with the telemetry state. -/
def nearbyRun (writeOk : Bool) (distM distDeg : Pt → Pt → ℚ)
    (events : List Event) (p : NearbyParams) (st : LogState) :
    Resp (List Feature) × LogState :=
  match parseCoord p.lat, parseCoord p.lng, parseRadius p.radius with
  | some lat, some lng, some radius =>
    let qs := nearbyEvents distM ⟨lng, lat⟩ radius events
    let st' := logSpatialQuery writeOk ⟨"nearby", qs.length⟩ st
    (.ok (qs.map (serializeEvent distDeg none)), st')
  | _, _, _ => (.badRequest "Invalid lat/lng/radius.", st)

-- ------------------------------------------------------------------
-- EventViewSet.list (views_api.py:133-251): the passive filter chain.
-- Each filter mirrors one reassignment of `qs`; pagination (page_size
-- 10000) is outside every claim and not modelled.
-- ------------------------------------------------------------------

/-- The raw query parameters of a `list` request. -/
structure ListParams where
  bbox : Option String
  category : Option String
  tags : Option String
  status : Option String
  q : Option String
  upcoming : Option String
  today : Option String
  ordering : Option String
deriving DecidableEq, Repr

/-- Parse `minLng,minLat,maxLng,maxLat` (`views_api.py:154`): all parts
must parse as floats and there must be exactly four (otherwise the tuple
unpacking or `float` raises, and the except-clause skips the filter). -/
def parseBbox (s : String) : Option (ℚ × ℚ × ℚ × ℚ) :=
  match (splitOnChar ',' s.data).mapM parseFloatChars with
  | some [a, b, c, d] => some (a, b, c, d)
  | _ => none

/-- `location__within=Polygon.from_bbox(...)`: the envelope containment
test the index evaluates (ST_Within of a point in a rectangle: interior
points only; no claim depends on the boundary convention). -/
def eventInBbox (bb : ℚ × ℚ × ℚ × ℚ) (e : Event) : Bool :=
  match e.location with
  | some l =>
    decide (bb.1 < l.lng) && decide (l.lng < bb.2.2.1) &&
    decide (bb.2.1 < l.lat) && decide (l.lat < bb.2.2.2)
  | none => false

/-- The bbox filter step (`views_api.py:149-159`): applied only when the
parameter is non-empty and parses; malformed input is swallowed
(`except Exception: pass`). -/
def applyBbox (p : ListParams) (qs : List Event) : List Event :=
  let bbox := trimStr (orDefault p.bbox "")
  if bbox = "" then qs
  else
    match parseBbox bbox with
    | some bb => qs.filter (eventInBbox bb)
    | none => qs

/-- The category filter step (`views_api.py:161-167`): applied only when
the parameter is truthy and `int()` succeeds; `except ValueError: pass`
otherwise. -/
def applyCategory (p : ListParams) (qs : List Event) : List Event :=
  match p.category with
  | none => qs
  | some c =>
    if c = "" then qs
    else
      match parseInt c with
      | some n => qs.filter fun e => e.category.any fun cat => cat.id == n
      | none => qs

/-- The tags filter step (`views_api.py:169-174`): one
`tags__icontains` filter per comma-separated tag. -/
def applyTags (p : ListParams) (qs : List Event) : List Event :=
  let tagsS := trimStr (p.tags.getD "")
  if tagsS = "" then qs
  else
    let tagList := (((splitOnChar ',' tagsS.data).map fun cs => trimStr ⟨cs⟩).filter fun t => t ≠ "")
    tagList.foldl (fun acc t => acc.filter fun e => icontains e.tags t) qs

/-- The status filter step (`views_api.py:176-179`): exact match. -/
def applyStatus (p : ListParams) (qs : List Event) : List Event :=
  let st := trimStr (p.status.getD "")
  if st = "" then qs else qs.filter fun e => e.status == st

/-- The text search step (`views_api.py:181-184`):
`title__icontains OR description__icontains`. -/
def applyQ (p : ListParams) (qs : List Event) : List Event :=
  let q := trimStr (orDefault p.q "")
  if q = "" then qs
  else qs.filter fun e => icontains e.title q || icontains e.description q

/-- One day, in the abstract clock's units (the exact unit is irrelevant
to every claim; `timedelta(days=1)` is this constant). -/
def ONE_DAY : ℤ := 86400000

/-- The temporal filter steps (`views_api.py:186-193`): `upcoming=true`
keeps `when > now`; `today=true` keeps `today_start ≤ when < today_start
+ 1 day`. -/
def applyTemporal (p : ListParams) (now dayStart : ℤ) (qs : List Event) : List Event :=
  let qs := if p.upcoming == some "true" then qs.filter (fun e => decide (now < e.whenT)) else qs
  if p.today == some "true" then
    qs.filter fun e => decide (dayStart ≤ e.whenT) && decide (e.whenT < dayStart + ONE_DAY)
  else qs

/-- The whole passive filter chain of `list`, in source order. -/
def applyFilters (p : ListParams) (now dayStart : ℤ) (events : List Event) : List Event :=
  applyTemporal p now dayStart (applyQ p (applyStatus p (applyTags p (applyCategory p (applyBbox p events)))))

/-- The effective ordering parameter
`(request.GET.get("ordering") or "-when").strip()` (`views_api.py:196`). -/
def orderingOf (p : ListParams) : String :=
  trimStr (orDefault p.ordering "-when")

/-- `EventViewSet.list` (`views_api.py:133-251`): filters, then
`order_by` — whose `FieldError` for an unknown field is raised at line
197, before the serialization try/except that begins at line 221, so it
escapes the view as a server error — then serialization (without a
reference point, so `distance` is null). -/
def listEvents (distDeg : Pt → Pt → ℚ) (now dayStart : ℤ)
    (events : List Event) (p : ListParams) : Resp (List Feature) :=
  match orderBy (orderingOf p) (applyFilters p now dayStart events) with
  | some sorted => .ok (sorted.map (serializeEvent distDeg none))
  | none => .serverError "FieldError: cannot resolve ordering field"

-- ------------------------------------------------------------------
-- EventViewSet.in_neighborhood (views_api.py:289-316) and
-- EventViewSet.in_polygon (views_api.py:359-409).
-- ------------------------------------------------------------------

/-- `_first_geom_attr(hood, HOOD_POLY_FIELDS)` (`views_api.py:61-73`):
the candidates are `("area", "polygon", "geom", "geometry", "boundary")`
and `Neighborhood` defines `area` (`models.py:79`), so the first present
attribute is always `area`. -/
def firstGeomAttrHood (n : NeighborhoodRec) : Polygon := n.area

/-- `get_object_or_404(Neighborhood, pk=hood_id)`'s lookup. -/
def findNeighborhood (hoods : List NeighborhoodRec) (i : ℤ) : Option NeighborhoodRec :=
  hoods.find? fun n => n.id == i

/-- `location__within=polygon` on one event (`views_api.py:302,396`):
the same external `within` operator serves both endpoints; NULL
locations never match. -/
def eventWithin (within : Pt → Polygon → Bool) (poly : Polygon) (e : Event) : Bool :=
  match e.location with
  | some l => within l poly
  | none => false

/-- `EventViewSet.in_neighborhood` (`views_api.py:289-316`): missing or
empty `neighborhood_id` → 400; a non-integer pk makes the ORM lookup
raise (server error); an absent id → 404; otherwise filter the events by
`within` against the neighborhood's `area` and serialize. -/
def in_neighborhood (within : Pt → Polygon → Bool) (distDeg : Pt → Pt → ℚ)
    (events : List Event) (hoods : List NeighborhoodRec)
    (hoodId : Option String) : Resp (List Feature) :=
  match hoodId with
  | none => .badRequest "neighborhood_id is required."
  | some s =>
    if s = "" then .badRequest "neighborhood_id is required."
    else
      match parseInt s with
      | none => .serverError "invalid neighborhood pk"
      | some i =>
        match findNeighborhood hoods i with
        | none => .notFound
        | some hood =>
          .ok ((defaultOrder (events.filter (eventWithin within (firstGeomAttrHood hood)))).map
            (serializeEvent distDeg none))

/-- `Polygon(coords, srid=4326)` (`views_api.py:378,389`): GEOS requires
a closed linear ring of at least four positions; anything else raises,
which the endpoint turns into a 400. -/
def mkPolygon (coords : List Pt) : Option Polygon :=
  if 4 ≤ coords.length ∧ coords.head? = coords.getLast? then some ⟨coords⟩ else none

/-- `EventViewSet.in_polygon` (`views_api.py:359-409`), GET branch, after
JSON decoding: no coordinates → 400; an invalid ring → 400; otherwise
filter the events by the same `within` operator and serialize. -/
def in_polygon (within : Pt → Polygon → Bool) (distDeg : Pt → Pt → ℚ)
    (events : List Event) (coords? : Option (List Pt)) : Resp (List Feature) :=
  match coords? with
  | none => .badRequest "polygon parameter required"
  | some cs =>
    match mkPolygon cs with
    | none => .badRequest "Invalid polygon format"
    | some poly =>
      .ok ((defaultOrder (events.filter (eventWithin within poly))).map
        (serializeEvent distDeg none))

-- ------------------------------------------------------------------
-- Concrete instantiations of the external geometric operators and
-- concrete rows, used by the closed evaluation theorems below.
-- ------------------------------------------------------------------

/-- A concrete stand-in for the external degree-valued distance operator
(GEOS `a.distance(b)`), exact at coincident points. -/
def l1Deg (a b : Pt) : ℚ := |a.lng - b.lng| + |a.lat - b.lat|

/-- A concrete stand-in for the datastore's meter-valued distance
operator, exact at coincident points. -/
def l1Meters (a b : Pt) : ℚ := l1Deg a b * METERS_PER_DEGREE

/-- The seeded Event of the spec's end-to-end scenario, at
(lng = -6.2603, lat = 53.3498). -/
def dublinEvent : Event :=
  { id := 1, title := "Dublin Event", description := "", whenT := 0,
    location := some ⟨-(62603 / 10000), 533498 / 10000⟩,
    category := none, organizer := none, country := none,
    tags := "", status := "active", reviews := [], media := [] }

/-- An Event with three reviews rated 1, 1 and 2 (mean 4/3). -/
def threeReviewEvent : Event :=
  { id := 7, title := "Rated", description := "", whenT := 0,
    location := none, category := none, organizer := none, country := none,
    tags := "", status := "active", reviews := [1, 1, 2], media := [] }

/-- An Event with no reviews. -/
def noReviewEvent : Event :=
  { id := 8, title := "Unrated", description := "", whenT := 0,
    location := none, category := none, organizer := none, country := none,
    tags := "", status := "active", reviews := [], media := [] }

/-- A plain Event inside the demo square neighborhood. -/
def insideEvent : Event :=
  { id := 2, title := "Inside", description := "", whenT := 5,
    location := some ⟨1, 1⟩, category := none, organizer := none,
    country := none, tags := "music", status := "active", reviews := [], media := [] }

/-- A plain Event outside the demo square neighborhood. -/
def outsideEvent : Event :=
  { id := 3, title := "Outside", description := "", whenT := 9,
    location := some ⟨9, 9⟩, category := none, organizer := none,
    country := none, tags := "", status := "active", reviews := [], media := [] }

/-- A demo neighborhood whose `area` is a closed square ring and whose
events relation is queryable. -/
def squareHood : NeighborhoodRec :=
  { id := 3, name := "Square", area := ⟨[⟨0, 0⟩, ⟨4, 0⟩, ⟨4, 4⟩, ⟨0, 0⟩]⟩,
    description := "", country := none, region := none, eventsCount := .ok 2 }

/-- A neighborhood whose `events.count()` raises (for example because the
events table is absent in a partially migrated deployment). -/
def brokenHood : NeighborhoodRec :=
  { id := 4, name := "Broken", area := ⟨[⟨0, 0⟩, ⟨1, 0⟩, ⟨1, 1⟩, ⟨0, 0⟩]⟩,
    description := "", country := none, region := none, eventsCount := .raised }

/-- A concrete stand-in for the external point-in-polygon operator:
containment in the [0,4]×[0,4] square (matching `squareHood.area`). -/
def withinSquare (pt : Pt) (_poly : Polygon) : Bool :=
  decide (0 ≤ pt.lng) && decide (pt.lng ≤ 4) && decide (0 ≤ pt.lat) && decide (pt.lat ≤ 4)

/-- A Route whose two-point path is degenerate (both points equal), so
the GEOS path is truthy but its length is 0. -/
def zeroLengthRoute : Route := { id := 1, name := "loop", path := some ⟨[⟨0, 0⟩, ⟨0, 0⟩]⟩ }

/-- A Route with a one-segment path. -/
def demoRoute : Route := { id := 2, name := "walk", path := some ⟨[⟨0, 0⟩, ⟨2, 0⟩]⟩ }

/-- The external GEOS length of `zeroLengthRoute.path`: a degenerate
linestring has length 0. -/
def zeroLength : LineString → ℚ := fun _ => 0

/-- A concrete external length operator giving `demoRoute`'s path 2
degrees. -/
def twoDegreeLength : LineString → ℚ := fun _ => 2

/-- The `list` request of the C5 scenario: a 3-number bbox, a
non-numeric category, and an ordering field that is not an Event
column. -/
def badOrderingParams : ListParams :=
  { bbox := some "1,2,3", category := some "abc", tags := none, status := none,
    q := none, upcoming := none, today := none, ordering := some "nonsense" }

/-- The same malformed passive filters but with the ordering left at its
default (`-when`). -/
def malformedFilterParams : ListParams :=
  { bbox := some "1,2,3", category := some "abc", tags := none, status := none,
    q := none, upcoming := none, today := none, ordering := none }

/-- An empty telemetry state. -/
def emptyLog : LogState := { entries := [], diagnostics := [] }

end CEL

namespace CEL

-- ------------------------------------------------------------------
-- Helper lemmas.
-- ------------------------------------------------------------------

theorem mem_insertBy {α : Type} (le : α → α → Bool) (a b : α) (l : List α) :
    b ∈ insertBy le a l ↔ b = a ∨ b ∈ l := by
  induction l with
  | nil => simp [insertBy]
  | cons h t ih =>
    simp only [insertBy]
    split
    · simp [List.mem_cons]
    · simp only [List.mem_cons, ih]
      tauto

theorem mem_sortBy {α : Type} (le : α → α → Bool) (l : List α) (a : α) :
    a ∈ sortBy le l ↔ a ∈ l := by
  induction l with
  | nil => simp [sortBy]
  | cons h t ih =>
    simp only [sortBy, List.foldr_cons] at *
    rw [mem_insertBy]
    simp only [List.mem_cons, ih]

theorem mem_defaultOrder (l : List Event) (e : Event) :
    e ∈ defaultOrder l ↔ e ∈ l :=
  mem_sortBy _ l e

theorem nearbyPred_true_iff (distM : Pt → Pt → ℚ) (pt : Pt) (radius : ℤ) (e : Event) :
    nearbyPred distM pt radius e = true
      ↔ ∃ l, e.location = some l ∧ distM l pt ≤ (radius : ℚ) := by
  unfold nearbyPred
  cases hl : e.location with
  | none => simp
  | some l => simp [hl]

-- ------------------------------------------------------------------
-- Claims.
-- ------------------------------------------------------------------

/-- C1 counterexample: a `nearby` request with lat = 91 (out of
[-90, 90]), lng = 200 (out of [-180, 180]) and radius = 100000 (above
the claimed 50,000 m bound) is **not** rejected: it parses, reaches the
spatial filter and returns a 200 FeatureCollection. -/
theorem C1_counterexample :
    (nearbyRun true l1Meters l1Deg []
        ⟨some "91", some "200", some "100000"⟩ emptyLog).1 = .ok [] := by
  decide!

/-- C1 as amended: a `nearby` request is rejected with a 400 `{'error':
...}` response exactly when lat or lng is missing or fails numeric
parsing, or radius is present and fails integer parsing; no range check
is performed, so out-of-range coordinates and a radius ≤ 0 or above any
bound proceed to the spatial filter. -/
theorem C1_nearby_validation (w : Bool) (distM distDeg : Pt → Pt → ℚ)
    (events : List Event) (p : NearbyParams) (st : LogState) :
    (∃ msg, (nearbyRun w distM distDeg events p st).1 = Resp.badRequest msg)
      ↔ (parseCoord p.lat = none ∨ parseCoord p.lng = none ∨ parseRadius p.radius = none) := by
  unfold nearbyRun
  cases hlat : parseCoord p.lat <;> cases hlng : parseCoord p.lng <;>
    cases hr : parseRadius p.radius <;> simp

/-- C2: for every metric the spatial index implements and every parsed
query point and radius, an Event is in the `nearby` result set exactly
when it is a stored Event whose location is non-null and at distance at
most `radius` meters from the query point under that metric; in
particular no Event farther than `radius` is included. -/
theorem C2_nearby_radius_filter (distM : Pt → Pt → ℚ) (pt : Pt) (radius : ℤ)
    (events : List Event) (e : Event) :
    e ∈ nearbyEvents distM pt radius events
      ↔ e ∈ events ∧ ∃ l, e.location = some l ∧ distM l pt ≤ (radius : ℚ) := by
  unfold nearbyEvents
  rw [mem_defaultOrder, List.mem_filter, nearbyPred_true_iff]

/-- C3 counterexample: the spec's end-to-end scenario — one Event seeded
at the exact query coordinates, radius 100 — returns exactly that Event,
but its `distance` property is null, not ≈ 0, because `nearby`
instantiates the serializer without a `reference_point`. -/
theorem C3_counterexample :
    (nearbyRun true l1Meters l1Deg [dublinEvent]
        ⟨some "53.3498", some "-6.2603", some "100"⟩ emptyLog).1
      = .ok [serializeEvent l1Deg none dublinEvent]
  ∧ (serializeEvent l1Deg none dublinEvent).distance = none := by
  constructor
  · decide!
  · rfl

/-- C3 as amended: a valid `nearby` request returns the filtered events
in the model's default `-when` order (not ordered by distance), and every
returned Feature's `distance` property is null, because `nearby` passes
no reference point to the serializer; in the single-seeded-Event scenario
the response contains exactly that Event with `distance` null. -/
theorem C3_nearby_distance_null (w : Bool) (distM distDeg : Pt → Pt → ℚ)
    (events : List Event) (p : NearbyParams) (st : LogState)
    (lat lng : ℚ) (radius : ℤ)
    (hlat : parseCoord p.lat = some lat) (hlng : parseCoord p.lng = some lng)
    (hr : parseRadius p.radius = some radius) :
    (nearbyRun w distM distDeg events p st).1
        = .ok ((nearbyEvents distM ⟨lng, lat⟩ radius events).map (serializeEvent distDeg none))
      ∧ ∀ f ∈ (nearbyEvents distM ⟨lng, lat⟩ radius events).map (serializeEvent distDeg none),
          f.distance = none := by
  constructor
  · unfold nearbyRun
    rw [hlat, hlng, hr]
  · intro f hf
    rcases List.mem_map.mp hf with ⟨e, _, rfl⟩
    rfl

/-- Witness for C3_nearby_distance_null at the spec's scenario inputs. -/
theorem C3_nearby_distance_null_witness :
    (nearbyRun true l1Meters l1Deg [dublinEvent]
        ⟨some "53.3498", some "-6.2603", some "100"⟩ emptyLog).1
      = .ok ((nearbyEvents l1Meters ⟨-(62603 / 10000), 533498 / 10000⟩ 100 [dublinEvent]).map
          (serializeEvent l1Deg none)) :=
  (C3_nearby_distance_null true l1Meters l1Deg [dublinEvent]
    ⟨some "53.3498", some "-6.2603", some "100"⟩ emptyLog
    (533498 / 10000) (-(62603 / 10000)) 100
    (by decide!) (by decide!) (by decide!)).1

/-- C4 counterexample: for an Event with ratings 1, 1, 2 the serialized
`average_rating` is the exact mean 4/3, not the 2-decimal rounding
133/100 that the claim (and the unused model property) prescribe. -/
theorem C4_counterexample :
    get_average_rating threeReviewEvent = some (4 / 3)
  ∧ modelAverageRating threeReviewEvent = some (133 / 100)
  ∧ ¬ get_average_rating threeReviewEvent = modelAverageRating threeReviewEvent := by
  refine ⟨by decide!, by decide!, by decide!⟩

/-- C4 as amended: the serialized `average_rating` is null when the Event
has no reviews and otherwise equals the **exact, unrounded** mean of the
review ratings; the model property `Event.average_rating` — which the
serializer does not call — is the mean rounded to 2 decimals. -/
theorem C4_average_rating (e : Event) :
    (e.reviews = [] → get_average_rating e = none)
  ∧ (e.reviews ≠ [] →
      get_average_rating e
          = some ((e.reviews.map fun r => (r : ℚ)).sum / (e.reviews.length : ℚ))
      ∧ modelAverageRating e
          = some (round2 ((e.reviews.map fun r => (r : ℚ)).sum / (e.reviews.length : ℚ)))) := by
  constructor
  · intro h
    simp [get_average_rating, h]
  · intro h
    have hi : e.reviews.isEmpty = false := by
      cases hr : e.reviews with
      | nil => exact absurd hr h
      | cons a t => rfl
    exact ⟨by simp [get_average_rating, hi], by simp [modelAverageRating, hi]⟩

/-- Witness for C4_average_rating on a rated and an unrated Event. -/
theorem C4_average_rating_witness :
    threeReviewEvent.reviews ≠ []
  ∧ (get_average_rating threeReviewEvent
        = some ((threeReviewEvent.reviews.map fun r => (r : ℚ)).sum
            / (threeReviewEvent.reviews.length : ℚ))
     ∧ modelAverageRating threeReviewEvent
        = some (round2 ((threeReviewEvent.reviews.map fun r => (r : ℚ)).sum
            / (threeReviewEvent.reviews.length : ℚ))))
  ∧ noReviewEvent.reviews = []
  ∧ get_average_rating noReviewEvent = none :=
  ⟨by decide!, (C4_average_rating threeReviewEvent).2 (by decide!),
   rfl, (C4_average_rating noReviewEvent).1 rfl⟩

/-- The bbox filter is a no-op whenever the bbox parameter does not parse
as exactly four floats (`views_api.py:152-159`). -/
theorem applyBbox_malformed (p : ListParams) (qs : List Event)
    (h : parseBbox (trimStr (orDefault p.bbox "")) = none) :
    applyBbox p qs = qs := by
  simp only [applyBbox]
  split
  · rfl
  · rw [h]

/-- The category filter is a no-op whenever the parameter is non-empty
but not an integer (`views_api.py:161-167`). -/
theorem applyCategory_malformed (p : ListParams) (qs : List Event) (c : String)
    (hc : p.category = some c) (hne : ¬ c = "") (hpi : parseInt c = none) :
    applyCategory p qs = qs := by
  unfold applyCategory
  rw [hc]
  simp [hne, hpi]

/-- C5 counterexample: a `list` request whose ordering field is not an
Event column is not silently ignored — `order_by` raises before the
serialization try/except, so the request yields an error response
instead of the filtered results. -/
theorem C5_counterexample :
    listEvents l1Deg 0 0 [insideEvent] badOrderingParams
      = .serverError "FieldError: cannot resolve ordering field" := by
  decide!

/-- C5 as amended: a malformed bbox (wrong arity or non-numeric parts)
and a non-numeric category id are silently dropped — the response equals
the one for the same request without that filter, and the rest of the
query still executes — but there is no ordering whitelist: the ordering
parameter is applied verbatim, an unknown field aborts the request with
a server error, and only a valid field name yields the 200 result. -/
theorem C5_passive_filters (distDeg : Pt → Pt → ℚ) (now dayStart : ℤ)
    (events : List Event) (p : ListParams) :
    (parseBbox (trimStr (orDefault p.bbox "")) = none →
        listEvents distDeg now dayStart events p
          = listEvents distDeg now dayStart events { p with bbox := none })
  ∧ (∀ c, p.category = some c → ¬ c = "" → parseInt c = none →
        listEvents distDeg now dayStart events p
          = listEvents distDeg now dayStart events { p with category := none })
  ∧ (validOrderFields.contains (stripDesc (orderingOf p)).2 = false →
        listEvents distDeg now dayStart events p
          = .serverError "FieldError: cannot resolve ordering field")
  ∧ (validOrderFields.contains (stripDesc (orderingOf p)).2 = true →
        ∃ fs, listEvents distDeg now dayStart events p = .ok fs) := by
  refine ⟨?_, ?_, ?_, ?_⟩
  · intro h
    have hfl : applyFilters p now dayStart events
        = applyFilters { p with bbox := none } now dayStart events := by
      unfold applyFilters
      rw [applyBbox_malformed p events h]
      rfl
    unfold listEvents
    rw [hfl]
    rfl
  · intro c hc hne hpi
    have hfl : applyFilters p now dayStart events
        = applyFilters { p with category := none } now dayStart events := by
      unfold applyFilters
      rw [applyCategory_malformed p (applyBbox p events) c hc hne hpi]
      rfl
    unfold listEvents
    rw [hfl]
    rfl
  · intro hv
    have hv' : ¬ (stripDesc (orderingOf p)).2 ∈ validOrderFields := by simpa using hv
    unfold listEvents orderBy
    simp [hv']
  · intro hv
    have hv' : (stripDesc (orderingOf p)).2 ∈ validOrderFields := by simpa using hv
    unfold listEvents orderBy
    simp [hv']

/-- Witness for C5_passive_filters on concrete malformed filters and on
the default `-when` ordering. -/
theorem C5_passive_filters_witness :
    listEvents l1Deg 0 0 [insideEvent, outsideEvent] malformedFilterParams
        = listEvents l1Deg 0 0 [insideEvent, outsideEvent]
            { malformedFilterParams with bbox := none }
  ∧ listEvents l1Deg 0 0 [insideEvent, outsideEvent] malformedFilterParams
        = listEvents l1Deg 0 0 [insideEvent, outsideEvent]
            { malformedFilterParams with category := none }
  ∧ (∃ fs, listEvents l1Deg 0 0 [insideEvent, outsideEvent] malformedFilterParams = .ok fs)
  ∧ listEvents l1Deg 0 0 [insideEvent] badOrderingParams
        = .serverError "FieldError: cannot resolve ordering field" :=
  ⟨(C5_passive_filters l1Deg 0 0 [insideEvent, outsideEvent] malformedFilterParams).1 (by decide!),
   (C5_passive_filters l1Deg 0 0 [insideEvent, outsideEvent] malformedFilterParams).2.1
     "abc" rfl (by decide) (by decide!),
   (C5_passive_filters l1Deg 0 0 [insideEvent, outsideEvent] malformedFilterParams).2.2.2 (by decide!),
   (C5_passive_filters l1Deg 0 0 [insideEvent] badOrderingParams).2.2.1 (by decide!)⟩

/-- C6: the claim (and the spec's degrade-gracefully policy) say a
failure while deriving `event_count` defaults it to 0 and never aborts
the Neighborhood record — and the shadowed first `get_event_count`
definition (`serializers.py:124-129`) indeed does that — but the second
definition of the same method (`serializers.py:131-133`) replaces it
with an unguarded `obj.events.count()`, so on a neighborhood whose
events count raises, serialization of the whole record aborts.  (An
Event with no category/organizer/country still serializes fine:
`serializeEvent` is total.) -/
theorem C6_neighborhood_count_abort :
    serializeNeighborhood brokenHood = .raised
  ∧ getEventCountShadowed brokenHood = 0
  ∧ serializeNeighborhood squareHood
      = .ok { id := 3, geometry := squareHood.area, name := "Square", description := "",
              event_count := 2, country := none, region := none } :=
  ⟨rfl, rfl, rfl⟩

/-- C7: for every stored neighborhood (valid closed ring) reachable by
id, `in_neighborhood` returns exactly what `in_polygon` returns on the
neighborhood's `area` ring: both code paths filter the same event set
with the same `within` operator against the same polygon. -/
theorem C7_in_neighborhood_in_polygon_agree
    (within : Pt → Polygon → Bool) (distDeg : Pt → Pt → ℚ)
    (events : List Event) (hoods : List NeighborhoodRec)
    (s : String) (i : ℤ) (hood : NeighborhoodRec)
    (hs : ¬ s = "") (hp : parseInt s = some i)
    (hf : findNeighborhood hoods i = some hood)
    (hring : mkPolygon hood.area.ring = some hood.area) :
    in_neighborhood within distDeg events hoods (some s)
      = in_polygon within distDeg events (some hood.area.ring) := by
  simp only [in_neighborhood, in_polygon, if_neg hs, hp, hf, hring, firstGeomAttrHood]

/-- Witness for C7 on a square neighborhood with one event inside and
one outside. -/
theorem C7_in_neighborhood_in_polygon_agree_witness :
    in_neighborhood withinSquare l1Deg [insideEvent, outsideEvent] [squareHood] (some "3")
      = in_polygon withinSquare l1Deg [insideEvent, outsideEvent] (some squareHood.area.ring) :=
  C7_in_neighborhood_in_polygon_agree withinSquare l1Deg [insideEvent, outsideEvent]
    [squareHood] "3" 3 squareHood (by decide) (by decide!) (by decide!) (by decide!)

/-- C8: the primary `nearby` response (status and body) is identical
whether the `SpatialQueryLog` write succeeds or fails, and a failed
write adds nothing to the log table — the failure is reported only on
the diagnostic channel. -/
theorem C8_telemetry_isolation (w₁ w₂ : Bool) (distM distDeg : Pt → Pt → ℚ)
    (events : List Event) (p : NearbyParams) (st : LogState) :
    (nearbyRun w₁ distM distDeg events p st).1 = (nearbyRun w₂ distM distDeg events p st).1
  ∧ (nearbyRun false distM distDeg events p st).2.entries = st.entries := by
  unfold nearbyRun
  cases parseCoord p.lat <;> cases parseCoord p.lng <;> cases parseRadius p.radius <;>
    simp [logSpatialQuery]

/-- C9 counterexample: a route whose (truthy) path has zero length gets
`distance_meters = 0.0`, and then `distance_km` is `None` — not
`round(0 / 1000, 2) = 0.0` as the claim requires — because the source
guards with Python truthiness (`if dist`), which treats 0.0 like None. -/
theorem C9_counterexample :
    distance_meters zeroLength zeroLengthRoute = some 0
  ∧ distance_km zeroLength zeroLengthRoute = none
  ∧ round2 (0 / 1000) = 0 := by
  refine ⟨by decide!, by decide!, by decide!⟩

/-- C9 as amended: every meter-valued quantity multiplies the
degree-valued external operator by the uniform constant 111,000 and
rounds to 2 decimals — the per-feature `distance` and the route
`distance_meters` alike — and `distance_km` is `distance_meters / 1000`
rounded to 2 decimals whenever `distance_meters` is non-null and
nonzero; when it is exactly 0, `distance_km` is null (Python truthiness
guard). -/
theorem C9_meter_conversion (lengthDeg : LineString → ℚ) (distDeg : Pt → Pt → ℚ) :
    (∀ r p, r.path = some p → p.points ≠ [] →
        distance_meters lengthDeg r = some (round2 (lengthDeg p * METERS_PER_DEGREE)))
  ∧ (∀ ref loc, get_distance distDeg (some ref) (some loc)
        = some (round2 (distDeg loc ref * METERS_PER_DEGREE)))
  ∧ (∀ r d, distance_meters lengthDeg r = some d → ¬ d = 0 →
        distance_km lengthDeg r = some (round2 (d / 1000)))
  ∧ (∀ r, distance_meters lengthDeg r = some 0 → distance_km lengthDeg r = none) := by
  refine ⟨?_, ?_, ?_, ?_⟩
  · intro r pp hp hne
    unfold distance_meters
    rw [hp]
    have hi : pp.points.isEmpty = false := by
      cases hr : pp.points with
      | nil => exact absurd hr hne
      | cons a t => rfl
    simp [hi]
  · intro ref loc
    rfl
  · intro r d hm hd
    unfold distance_km
    rw [hm]
    simp [hd]
  · intro r hm
    unfold distance_km
    rw [hm]
    simp

/-- Witness for C9_meter_conversion on a one-segment route, a
coincident-point distance, and the zero-length route. -/
theorem C9_meter_conversion_witness :
    distance_meters twoDegreeLength demoRoute
        = some (round2 (twoDegreeLength ⟨[⟨0, 0⟩, ⟨2, 0⟩]⟩ * METERS_PER_DEGREE))
  ∧ get_distance l1Deg (some ⟨1, 1⟩) (some ⟨1, 1⟩)
        = some (round2 (l1Deg ⟨1, 1⟩ ⟨1, 1⟩ * METERS_PER_DEGREE))
  ∧ distance_km twoDegreeLength demoRoute = some (round2 (222000 / 1000))
  ∧ distance_km zeroLength zeroLengthRoute = none :=
  ⟨(C9_meter_conversion twoDegreeLength l1Deg).1 demoRoute ⟨[⟨0, 0⟩, ⟨2, 0⟩]⟩ rfl (by decide),
   (C9_meter_conversion twoDegreeLength l1Deg).2.1 ⟨1, 1⟩ ⟨1, 1⟩,
   (C9_meter_conversion twoDegreeLength l1Deg).2.2.1 demoRoute 222000 (by decide!) (by decide!),
   (C9_meter_conversion zeroLength l1Deg).2.2.2 zeroLengthRoute (by decide!)⟩

/-- C10: the serialized `media` property is the empty list for every
Event, however many EventMedia rows are attached: `get_media` probes the
attribute `media_files`, which does not exist on Event — the reverse
relation from EventMedia is named `media` — so the probe always misses
and the fallback `[]` is returned. -/
theorem C10_media_never_serialized (e : Event) :
    get_media e = [] ∧ eventAttrMedia e = e.media :=
  ⟨rfl, rfl⟩

end CEL
